import Mathlib

/-!
Verification of `crates/sdk/src/tracing.rs`.

The module under verification is configuration glue over the `tracing`,
`tracing-subscriber`, `opentelemetry` and `http` Rust libraries.  We give a
shallow embedding:

* spans become a Lean structure whose fields are the recorded string values
  (the source records every value through `tracing::field::display` /
  `Debug`, i.e. as rendered text);
* the mutable global state touched by `init_tracing` (global propagator,
  global tracer provider, global default subscriber) becomes an explicit
  `GlobalState` value threaded through the function;
* the parts of the third-party libraries whose behaviour the source relies
  on (the W3C `TraceContextPropagator`, `SpanContext::is_valid`,
  `StatusCode`'s `Display`, `Duration::as_nanos`, `EnvFilter` directive
  parsing, `SubscriberInitExt::init` panicking when a global subscriber is
  already set) are modelled as executable Lean functions, each documented at
  its definition.

All functions are total Lean `def`s; fallible steps return `Option` or an
explicit result constructor.
-/

namespace NdcSdkTracing

/-- HTTP headers, as a list of (name, value) pairs.  Header names are taken
to be already lower-cased, which is how the `http` crate stores them and how
the propagator queries them (`"traceparent"`). -/
def Headers := List (String × String)

/-- `Extractor::get` composed with `HeaderMap::get`: the value of the first
header with the given name, if any. -/
def get_header (headers : Headers) (name : String) : Option String :=
  (headers.find? (fun h => h.1 == name)).map (fun h => h.2)

/-- Model of `opentelemetry::trace::SpanContext`: the identifying part of a
trace context.  `traceId` is a 128-bit id, `spanId` a 64-bit id,
`traceFlags` an 8-bit flags byte, `isRemote` whether the context was
received from a remote parent. -/
structure SpanContext where
  traceId : Nat
  spanId : Nat
  traceFlags : Nat
  isRemote : Bool
deriving Repr, DecidableEq

/-- `SpanContext::is_valid`: a context is valid iff both ids are nonzero
(the all-zero ids are the reserved invalid values). -/
def SpanContext.is_valid (c : SpanContext) : Bool :=
  c.traceId != 0 && c.spanId != 0

/-- The invalid span context carried by a no-op span (zero ids). -/
def SpanContext.invalid : SpanContext :=
  { traceId := 0, spanId := 0, traceFlags := 0, isRemote := false }

/-- Model of `opentelemetry::Context` as used here: either it carries a
remote span context (set by `Context::with_remote_span_context` during
extraction) or it is empty. -/
structure Context where
  remoteSpanContext : Option SpanContext
deriving Repr, DecidableEq

/-- The empty ambient context (`Context::current()` with no active span,
which is the state in which the middleware calls `make_span`). -/
def Context.empty : Context := { remoteSpanContext := none }

/-- `cx.span().span_context()`: the span context of the context's span.  A
context with no span yields a no-op span whose span context is the invalid
one. -/
def Context.span_context (cx : Context) : SpanContext :=
  cx.remoteSpanContext.getD SpanContext.invalid

/-! ### The W3C trace-context propagator

`init_tracing` registers `opentelemetry_sdk::propagation::TraceContextPropagator`
as the global text-map propagator; `make_span` consults whatever propagator
is globally registered.  The following definitions model the propagator's
`extract` (parsing the `traceparent` header per the W3C spec), operating on
`List Char` so that everything reduces by `decide`. -/

/-- Value of an ASCII hex digit, upper or lower case
(`char::to_digit(16)`). -/
def hexDigitVal? (c : Char) : Option Nat :=
  if '0' ≤ c ∧ c ≤ '9' then some (c.toNat - '0'.toNat)
  else if 'a' ≤ c ∧ c ≤ 'f' then some (c.toNat - 'a'.toNat + 10)
  else if 'A' ≤ c ∧ c ≤ 'F' then some (c.toNat - 'A'.toNat + 10)
  else none

/-- `uN::from_str_radix(s, 16)` for an unsigned integer type of `bits`
bits: fails on an empty string, on a non-hex character, or on overflow of
the target type. -/
def from_hex? (bits : Nat) (s : List Char) : Option Nat :=
  match s with
  | [] => none
  | _ =>
    (s.foldl (fun acc c => acc.bind fun n => (hexDigitVal? c).map fun d => n * 16 + d)
        (some 0)).bind
      fun n => if n < 2 ^ bits then some n else none

/-- ASCII whitespace predicate used by `str::trim` (the header values in
play are ASCII). -/
def isTrimWhitespace (c : Char) : Bool :=
  c = ' ' || c = '\t' || c = '\n' || c = '\r'

/-- `str::trim`: strip leading and trailing whitespace. -/
def trimChars (s : List Char) : List Char :=
  ((s.dropWhile isTrimWhitespace).reverse.dropWhile isTrimWhitespace).reverse

/-- `str::split(sep)`: split at every separator character, keeping empty
pieces.  `acc` is the (reversed) current piece. -/
def splitSep (sep : Char) : List Char → List Char → List (List Char)
  | [], acc => [acc.reverse]
  | c :: cs, acc =>
    if c = sep then acc.reverse :: splitSep sep cs [] else splitSep sep cs (c :: acc)

/-- `str::split_terminator('-')`: like split, but a trailing empty piece
(produced by a trailing separator or by the empty string) is dropped. -/
def split_terminator (s : List Char) : List (List Char) :=
  let parts := splitSep '-' s []
  if parts.getLast? = some [] then parts.dropLast else parts

/-- `char::is_ascii_uppercase`. -/
def isAsciiUppercase (c : Char) : Bool :=
  'A' ≤ c && c ≤ 'Z'

/-- `TraceContextPropagator::extract_span_context`: parse the `traceparent`
header value `version-traceid-spanid-flags`.  Returns `none` (the Rust
`Err(())`) when the header is absent, has fewer than four sections, has an
unsupported version, has a trace id or span id that is not lower-case hex of
the right range, has bad flags, or carries the all-zero (invalid) ids. -/
def extract_span_context (headers : Headers) : Option SpanContext :=
  let header_value := trimChars ((get_header headers "traceparent").getD "").data
  let parts := split_terminator header_value
  if parts.length < 4 then none
  else
    match from_hex? 8 (parts.getD 0 []) with
    | none => none
    | some version =>
      if version > 254 || (version == 0 && parts.length != 4) then none
      else
        let tid := parts.getD 1 []
        if tid.any isAsciiUppercase then none
        else
          match from_hex? 128 tid with
          | none => none
          | some trace_id =>
            let sid := parts.getD 2 []
            if sid.any isAsciiUppercase then none
            else
              match from_hex? 64 sid with
              | none => none
              | some span_id =>
                match from_hex? 8 (parts.getD 3 []) with
                | none => none
                | some opts =>
                  if version == 0 && opts > 2 then none
                  else
                    let sc : SpanContext :=
                      { traceId := trace_id, spanId := span_id,
                        traceFlags := opts % 2, isRemote := true }
                    if sc.is_valid then some sc else none

/-- `TraceContextPropagator::extract` over the empty current context: on a
successful parse the extracted span context is attached as the context's
remote span context; otherwise the (empty) current context is returned
unchanged. -/
def traceContextExtract (headers : Headers) : Context :=
  match extract_span_context headers with
  | some sc => { remoteSpanContext := some sc }
  | none => Context.empty

/-! ### Requests, responses, durations, spans -/

/-- The parts of `http::Request<Body>` that `make_span` reads.  `method`,
`uri` and `version` are kept as their rendered forms (`Display` for method
and uri, `Debug` for version, e.g. `"HTTP/1.1"`), since that is exactly
what the source interpolates into the span fields. -/
structure Request where
  method : String
  uri : String
  version : String
  headers : Headers

/-- The parts of `http::Response<BoxBody>` that `on_response` can see.
`status` is the numeric status code; headers and body are carried to state
frame properties. -/
structure Response where
  status : Nat
  headers : Headers
  body : String

/-- `http::StatusCode::canonical_reason` (excerpt of the IANA table from
the `http` crate; codes outside the table yield `none`, exactly as in the
library). -/
def canonical_reason (code : Nat) : Option String :=
  match code with
  | 100 => some "Continue"
  | 200 => some "OK"
  | 201 => some "Created"
  | 204 => some "No Content"
  | 301 => some "Moved Permanently"
  | 302 => some "Found"
  | 304 => some "Not Modified"
  | 400 => some "Bad Request"
  | 401 => some "Unauthorized"
  | 403 => some "Forbidden"
  | 404 => some "Not Found"
  | 500 => some "Internal Server Error"
  | 503 => some "Service Unavailable"
  | _ => none

/-- `Display` for `http::StatusCode`: the numeric code, a space, and the
canonical reason phrase (or a placeholder when the code has none), e.g.
`"200 OK"`.  This is the value `tracing::field::display(response.status())`
renders into the span. -/
def status_display (code : Nat) : String :=
  toString code ++ " " ++ ((canonical_reason code).getD "<unknown status code>")

/-- `std::time::Duration`: seconds plus a sub-second nanosecond part. -/
structure Duration where
  secs : Nat
  nanos : Nat
deriving Repr, DecidableEq

/-- `Duration::as_nanos`: the total number of whole nanoseconds. -/
def Duration.as_nanos (d : Duration) : Nat :=
  d.secs * 1000000000 + d.nanos

/-- `Duration::from_millis`. -/
def Duration.from_millis (ms : Nat) : Duration :=
  { secs := ms / 1000, nanos := ms % 1000 * 1000000 }

/-- Model of the `tracing` span created by `make_span`.  The span macro
declares exactly the fields `method`, `uri`, `version`, `status`,
`latency`; the two late fields are `Option`s that start `none`
(`tracing::field::Empty`).  `parent` is the OTel parent context attached by
`set_parent` (absent for a root span), and `closed` records whether the
span has been closed (closing is done by the middleware's scope management,
never by this module). -/
structure Span where
  name : String
  method : String
  uri : String
  version : String
  status : Option String
  latency : Option String
  parent : Option Context
  closed : Bool
deriving Repr, DecidableEq

/-- `make_span` from `crates/sdk/src/tracing.rs`, parameterised by the
globally registered propagator's `extract` (the source fetches it with
`opentelemetry::global::get_text_map_propagator`; after `init_tracing` it
is `traceContextExtract`).  Creates the `"request"` span with the three
immutable fields and the two empty fields, extracts the parent context from
the headers, and attaches it as parent only when its span context is valid.
The function is total: there is no failure path. -/
def make_span (extract : Headers → Context) (request : Request) : Span :=
  let span : Span :=
    { name := "request"
      method := request.method
      uri := request.uri
      version := request.version
      status := none
      latency := none
      parent := none
      closed := false }
  let parent_context := extract request.headers
  let parent_context_span_context := parent_context.span_context
  if parent_context_span_context.is_valid then
    { span with parent := some parent_context }
  else
    span

/-- `on_response` from `crates/sdk/src/tracing.rs`: records the rendered
status code into `status` and the rendered nanosecond latency into
`latency`.  The Rust function mutates through `&Span` and returns `()`;
here the mutation is explicit state passing, so the updated span is
returned.  Total: no failure path. -/
def on_response (response : Response) (latency : Duration) (span : Span) : Span :=
  { span with
    status := some (status_display response.status)
    latency := some (toString latency.as_nanos) }

/-! ### `init_tracing` and the process-wide global state

`init_tracing` mutates three pieces of library-owned global state: the
global text-map propagator, the global tracer provider (set by
`install_batch`, carrying the resource attributes and endpoint), and the
global default `tracing` subscriber.  We thread them explicitly. -/

/-- Which text-map propagator is globally registered.  A fresh process has
the no-op propagator; `init_tracing` installs the W3C
`TraceContextPropagator` (modelled by `traceContextExtract`). -/
inductive PropagatorKind where
  | noop
  | traceContext
deriving Repr, DecidableEq

/-- The process-wide global state read and written by `init_tracing`. -/
structure GlobalState where
  propagator : PropagatorKind
  tracerResource : Option (List (String × String))
  tracerEndpoint : Option String
  subscriberSet : Bool
deriving Repr, DecidableEq

/-- The state of a freshly started process: no propagator, no tracer
provider, no global default subscriber. -/
def GlobalState.fresh : GlobalState :=
  { propagator := .noop, tracerResource := none, tracerEndpoint := none,
    subscriberSet := false }

/-- The error values `init_tracing` can return through its `?` operators:
exporter-pipeline construction failure (`install_batch?`) or a malformed
`EnvFilter` directive string (`parse?`). -/
inductive InitError where
  | pipeline (msg : String)
  | filterParse (s : String)
deriving Repr, DecidableEq

/-- How a call to `init_tracing` ends: normal return `Ok(())`, an error
return, or a panic (an abort that is not a return value at all). -/
inductive InitResult where
  | ok
  | err (e : InitError)
  | panicked (msg : String)
deriving Repr, DecidableEq

/-- `InitResult.isErr`: did the call return an error value? -/
def InitResult.isErr : InitResult → Bool
  | .err _ => true
  | _ => false

/-- `opentelemetry_otlp::OTEL_EXPORTER_OTLP_ENDPOINT_DEFAULT`. -/
def OTEL_EXPORTER_OTLP_ENDPOINT_DEFAULT : String := "http://localhost:4317"

/-- `opentelemetry_semantic_conventions::resource::SERVICE_NAME`. -/
def SERVICE_NAME : String := "service.name"

/-- `opentelemetry_semantic_conventions::resource::SERVICE_VERSION`. -/
def SERVICE_VERSION : String := "service.version"

/-- The `Resource::new(vec![...])` built inside `init_tracing`: service
name from the input (defaulting to the build's `CARGO_PKG_NAME`) and
service version from the build's `CARGO_PKG_VERSION`.  The two build
constants are parameters because they are compiled in from package
metadata, not part of the source file. -/
def tracing_resource (pkgName pkgVersion : String) (service_name : Option String) :
    List (String × String) :=
  [(SERVICE_NAME, service_name.getD pkgName), (SERVICE_VERSION, pkgVersion)]

/-- A tracing level name accepted by `LevelFilter::from_str`
(case-sensitive lower-case spellings suffice for the constant in play;
`EnvFilter` also accepts numeric levels). -/
def isLevelName (s : List Char) : Bool :=
  s == "trace".data || s == "debug".data || s == "info".data || s == "warn".data ||
    s == "error".data || s == "off".data || s == "0".data || s == "1".data ||
    s == "2".data || s == "3".data || s == "4".data || s == "5".data

/-- One parsed `EnvFilter` directive: either a bare default level, a bare
target (filtered at trace level), or a `target=level` pair. -/
inductive Directive where
  | defaultLevel (level : List Char)
  | target (t : List Char)
  | targetLevel (t : List Char) (level : List Char)
deriving Repr, DecidableEq

/-- Parse one `EnvFilter` directive: `level`, `target`, or `target=level`.
A directive with a malformed level, an empty target, or more than one `=`
is rejected. -/
def parse_directive (s : List Char) : Option Directive :=
  match splitSep '=' s [] with
  | [single] =>
    if isLevelName single then some (.defaultLevel single)
    else if single.isEmpty then none
    else some (.target single)
  | [t, lvl] =>
    if t.isEmpty then none
    else if isLevelName lvl then some (.targetLevel t lvl) else none
  | _ => none

/-- `EnvFilter::builder().parse(s)`: split the comma-separated directive
list and parse each directive; any malformed directive fails the whole
parse.  (Span/field selectors, unused by the constant under verification,
are not modelled.) -/
def env_filter_parse (s : String) : Option (List Directive) :=
  (splitSep ',' s.data []).foldr
    (fun d acc => acc.bind fun ds => (parse_directive d).map fun pd => pd :: ds)
    (some [])

/-- The filter directive string passed to `EnvFilter::builder().parse` in
`init_tracing`: a compile-time constant. -/
def filter_string : String := "info,otel::tracing=trace,otel=debug"

/-- `init_tracing` from `crates/sdk/src/tracing.rs`, over explicit global
state.  `pipelineOk` stands for whether `install_batch` succeeds (exporter
construction can fail for environmental reasons outside this module, e.g.
no Tokio runtime); `pkgName`/`pkgVersion` are the build's
`CARGO_PKG_NAME`/`CARGO_PKG_VERSION`.  Step order follows the source:

1. `set_text_map_propagator(TraceContextPropagator::new())`;
2. build the exporter pipeline (endpoint defaulted, resource attributes,
   parent-based sampler) and `install_batch` — `?` returns its error;
3. build the layered subscriber; `EnvFilter::parse` — `?` returns its
   error;
4. `.init()` — `SubscriberInitExt::init` sets the global default
   subscriber and PANICS (does not return an error) when one is already
   set.

Returns the updated global state and how the call ended. -/
def init_tracing (pipelineOk : Bool) (pkgName pkgVersion : String)
    (service_name otlp_endpoint : Option String) (st : GlobalState) :
    GlobalState × InitResult :=
  let st1 := { st with propagator := .traceContext }
  if !pipelineOk then
    (st1, .err (.pipeline "exporter pipeline construction failed"))
  else
    let endpoint := otlp_endpoint.getD OTEL_EXPORTER_OTLP_ENDPOINT_DEFAULT
    let resource := tracing_resource pkgName pkgVersion service_name
    let st2 := { st1 with tracerResource := some resource, tracerEndpoint := some endpoint }
    match env_filter_parse filter_string with
    | none => (st2, .err (.filterParse filter_string))
    | some _ =>
      if st2.subscriberSet then
        (st2, .panicked "failed to set global default subscriber")
      else
        ({ st2 with subscriberSet := true }, .ok)

/-- The service-name resource attribute carried by the globally installed
tracer provider, if one is installed. -/
def serviceNameAttr (st : GlobalState) : Option String :=
  st.tracerResource.bind fun r => (r.find? (fun kv => kv.1 == SERVICE_NAME)).map (·.2)

/-! ## Theorems for the claims -/

/-- C1: if the request's headers contain no `traceparent` header, or the
globally configured propagator extracts a context whose span context is
invalid (no real upstream span identity), then `make_span` returns a root
span (no parent attached).  `make_span` cannot fail: it is a total function
into `Span`, with no error component in its result type. -/
theorem make_span_root_when_no_valid_parent (req : Request) :
    (∀ extract : Headers → Context,
        (extract req.headers).span_context.is_valid = false →
          (make_span extract req).parent = none)
    ∧ (get_header req.headers "traceparent" = none →
        (traceContextExtract req.headers).span_context.is_valid = false ∧
          (make_span traceContextExtract req).parent = none) := by
  constructor
  · intro extract h
    simp [make_span, h]
  · intro h
    have hext : extract_span_context req.headers = none := by
      unfold extract_span_context
      rw [h]
      decide
    have hinv : (traceContextExtract req.headers).span_context.is_valid = false := by
      unfold traceContextExtract
      rw [hext]
      decide
    exact ⟨hinv, by simp [make_span, hinv]⟩

/-- Witness for C1: a request whose `traceparent` header is syntactically
well-formed but carries the all-zero (invalid) ids yields a root span, and
a request with no `traceparent` header at all yields a root span. -/
theorem make_span_root_when_no_valid_parent_witness :
    (make_span traceContextExtract
        { method := "GET", uri := "/", version := "HTTP/1.1",
          headers := [("traceparent",
            "00-00000000000000000000000000000000-0000000000000000-01")] }).parent = none
    ∧ (make_span traceContextExtract
        { method := "GET", uri := "/", version := "HTTP/1.1",
          headers := [("host", "example.com")] }).parent = none :=
  ⟨(make_span_root_when_no_valid_parent _).1 traceContextExtract (by decide),
   ((make_span_root_when_no_valid_parent
      { method := "GET", uri := "/", version := "HTTP/1.1",
        headers := [("host", "example.com")] }).2 (by decide)).2⟩

/-- C2: when the context extracted from the request's headers by the
globally configured propagator is valid, the span returned by `make_span`
has that extracted context, whole, as its parent. -/
theorem make_span_parent_is_extracted_context (extract : Headers → Context) (req : Request)
    (h : (extract req.headers).span_context.is_valid = true) :
    (make_span extract req).parent = some (extract req.headers) := by
  simp [make_span, h]

/-- Witness for C2: a well-formed, valid W3C `traceparent` header becomes
the parent of the constructed span, and the extracted context indeed
carries the header's trace id and span id. -/
theorem make_span_parent_is_extracted_context_witness :
    (make_span traceContextExtract
        { method := "POST", uri := "/query", version := "HTTP/1.1",
          headers := [("traceparent",
            "00-0af7651916cd43dd8448eb211c80319c-b7ad6b7169203331-01")] }).parent
      = some (traceContextExtract
          [("traceparent", "00-0af7651916cd43dd8448eb211c80319c-b7ad6b7169203331-01")])
    ∧ traceContextExtract
          [("traceparent", "00-0af7651916cd43dd8448eb211c80319c-b7ad6b7169203331-01")]
        = Context.mk (some (SpanContext.mk 0x0af7651916cd43dd8448eb211c80319c
            0xb7ad6b7169203331 1 true)) :=
  ⟨make_span_parent_is_extracted_context traceContextExtract
      { method := "POST", uri := "/query", version := "HTTP/1.1",
        headers := [("traceparent",
          "00-0af7651916cd43dd8448eb211c80319c-b7ad6b7169203331-01")] } (by decide),
   by decide⟩

/-- Counterexample to C3: on a concrete double initialization (first call
succeeds), the second call does not return an error value at all — it
panics inside `SubscriberInitExt::init` (`.init()` is `try_init()` followed
by `.expect(...)`), i.e. the process aborts rather than handing the caller
an assertable error. -/
theorem init_tracing_twice_no_error_value :
    ((init_tracing true "ndc-sdk" "0.1.0" none none GlobalState.fresh).2 = .ok)
    ∧ ((init_tracing true "ndc-sdk" "0.1.0" none none
          (init_tracing true "ndc-sdk" "0.1.0" none none GlobalState.fresh).1).2
        = .panicked "failed to set global default subscriber")
    ∧ ((init_tracing true "ndc-sdk" "0.1.0" none none
          (init_tracing true "ndc-sdk" "0.1.0" none none GlobalState.fresh).1).2).isErr
        = false := by
  decide

/-- C3 as amended: a second call to `init_tracing` in the same process
(global subscriber already registered) neither succeeds nor is a no-op, but
it does not return an error value either: provided pipeline construction
succeeds, it panics while registering the global default subscriber. -/
theorem init_tracing_second_call_panics (pipelineOk : Bool) (pkgName pkgVersion : String)
    (sn ep : Option String) (st : GlobalState)
    (hsub : st.subscriberSet = true) (hp : pipelineOk = true) :
    (init_tracing pipelineOk pkgName pkgVersion sn ep st).2
        = .panicked "failed to set global default subscriber"
    ∧ ((init_tracing pipelineOk pkgName pkgVersion sn ep st).2.isErr = false
    ∧ (init_tracing pipelineOk pkgName pkgVersion sn ep st).2 ≠ .ok) := by
  subst hp
  have hparse : env_filter_parse filter_string
      = some [.defaultLevel "info".data, .targetLevel "otel::tracing".data "trace".data,
              .targetLevel "otel".data "debug".data] := by decide
  unfold init_tracing
  rw [hparse]
  simp [hsub, InitResult.isErr]

/-- Witness for the amended C3: after one successful initialization, a
second call panics, returns no error, and does not succeed. -/
theorem init_tracing_second_call_panics_witness :
    (init_tracing true "ndc-test" "1.2.3" (some "svc") (some "http://otel:4317")
        (init_tracing true "ndc-test" "1.2.3" (some "svc") (some "http://otel:4317")
          GlobalState.fresh).1).2
      = .panicked "failed to set global default subscriber"
    ∧ ((init_tracing true "ndc-test" "1.2.3" (some "svc") (some "http://otel:4317")
        (init_tracing true "ndc-test" "1.2.3" (some "svc") (some "http://otel:4317")
          GlobalState.fresh).1).2.isErr = false
    ∧ (init_tracing true "ndc-test" "1.2.3" (some "svc") (some "http://otel:4317")
        (init_tracing true "ndc-test" "1.2.3" (some "svc") (some "http://otel:4317")
          GlobalState.fresh).1).2 ≠ .ok) :=
  init_tracing_second_call_panics true "ndc-test" "1.2.3" (some "svc")
    (some "http://otel:4317")
    (init_tracing true "ndc-test" "1.2.3" (some "svc") (some "http://otel:4317")
      GlobalState.fresh).1
    (by decide) rfl

/-- Counterexample to C4: in the `GET /health` scenario the span's status
field after `on_response` does not hold `200` — `on_response` records the
`Display` rendering of `http::StatusCode`, which is the code followed by
its canonical reason phrase, so the field holds `"200 OK"`. -/
theorem health_scenario_status_is_200_ok_not_200 :
    ((on_response { status := 200, headers := [], body := "" } (Duration.from_millis 5)
        (make_span traceContextExtract
          { method := "GET", uri := "/health", version := "HTTP/1.1",
            headers := [] })).status ≠ some "200")
    ∧ ((on_response { status := 200, headers := [], body := "" } (Duration.from_millis 5)
        (make_span traceContextExtract
          { method := "GET", uri := "/health", version := "HTTP/1.1",
            headers := [] })).status = some "200 OK") := by
  decide

/-- C4 as amended: for `GET /health HTTP/1.1` with no trace-context header,
`make_span` creates a span with `method=GET`, `uri=/health`,
`version=HTTP/1.1` and no parent; after `on_response` with a `200 OK`
response and a 5 ms latency, the span's status field holds the rendered
status `"200 OK"` (not the bare digits `200`) and its latency field holds
`5000000` nanoseconds. -/
theorem health_scenario_end_to_end :
    make_span traceContextExtract
        { method := "GET", uri := "/health", version := "HTTP/1.1", headers := [] }
      = { name := "request", method := "GET", uri := "/health", version := "HTTP/1.1",
          status := none, latency := none, parent := none, closed := false }
    ∧ on_response { status := 200, headers := [], body := "" } (Duration.from_millis 5)
        (make_span traceContextExtract
          { method := "GET", uri := "/health", version := "HTTP/1.1", headers := [] })
      = { name := "request", method := "GET", uri := "/health", version := "HTTP/1.1",
          status := some "200 OK", latency := some "5000000", parent := none,
          closed := false } := by
  decide

/-- C5: for every request and every configured propagator, the span built
by `make_span` is named `"request"`, its immutable `method`, `uri` and
`version` fields come from the request, and its only other declared fields
— `status` and `latency` — are left `Empty` at creation.  (The `Span`
structure declares exactly these five recordable fields, mirroring the
field list of the `info_span!` invocation.) -/
theorem make_span_fields (extract : Headers → Context) (req : Request) :
    (make_span extract req).name = "request"
    ∧ (make_span extract req).method = req.method
    ∧ (make_span extract req).uri = req.uri
    ∧ (make_span extract req).version = req.version
    ∧ (make_span extract req).status = none
    ∧ (make_span extract req).latency = none := by
  unfold make_span
  cases hv : (extract req.headers).span_context.is_valid <;> simp [hv]

/-- C6: after `on_response`, the span's status field is non-empty and holds
the human-readable rendering of the response's status code, and its latency
field is non-empty and holds the latency converted to whole nanoseconds;
`on_response` is total (it returns the updated span unconditionally — the
Rust original returns `()` and has no error path). -/
theorem on_response_records_status_and_latency (resp : Response) (lat : Duration)
    (span : Span) :
    (on_response resp lat span).status = some (status_display resp.status)
    ∧ (on_response resp lat span).status ≠ none
    ∧ (on_response resp lat span).latency = some (toString lat.as_nanos)
    ∧ (on_response resp lat span).latency ≠ none := by
  simp [on_response]

/-- C7: `on_response` mutates only the span's `status` and `latency`
fields: the span's name, `method`, `uri`, `version` and parent are
unchanged, and the call does not close the span. -/
theorem on_response_frame (resp : Response) (lat : Duration) (span : Span) :
    (on_response resp lat span).name = span.name
    ∧ (on_response resp lat span).method = span.method
    ∧ (on_response resp lat span).uri = span.uri
    ∧ (on_response resp lat span).version = span.version
    ∧ (on_response resp lat span).parent = span.parent
    ∧ (on_response resp lat span).closed = span.closed := by
  simp [on_response]

/-- C8: when `init_tracing` succeeds, the service-name resource attribute
it installs equals `s` when `service_name = some s` and equals the build's
declared package name when `service_name = none`; the string is handed over
as-is (`unwrap_or` then `to_string`), with no further validation. -/
theorem init_tracing_service_name_attr (pipelineOk : Bool) (pkgName pkgVersion : String)
    (sn ep : Option String) (st : GlobalState)
    (h : (init_tracing pipelineOk pkgName pkgVersion sn ep st).2 = .ok) :
    serviceNameAttr (init_tracing pipelineOk pkgName pkgVersion sn ep st).1
      = some (sn.getD pkgName) := by
  have hparse : env_filter_parse filter_string
      = some [.defaultLevel "info".data, .targetLevel "otel::tracing".data "trace".data,
              .targetLevel "otel".data "debug".data] := by decide
  cases pipelineOk
  · simp [init_tracing] at h
  · unfold init_tracing at h ⊢
    rw [hparse] at h ⊢
    by_cases hsub : st.subscriberSet <;>
      simp [hsub, serviceNameAttr, tracing_resource, SERVICE_NAME, SERVICE_VERSION,
        List.find?] at h ⊢

/-- Witness for C8: with `service_name = some "x"` the installed
service-name attribute is `"x"`; with `service_name = none` it is the
build's package name. -/
theorem init_tracing_service_name_attr_witness :
    serviceNameAttr (init_tracing true "ndc-sdk" "0.1.4" (some "x") none
        GlobalState.fresh).1 = some "x"
    ∧ serviceNameAttr (init_tracing true "ndc-sdk" "0.1.4" none none
        GlobalState.fresh).1 = some "ndc-sdk" :=
  ⟨init_tracing_service_name_attr true "ndc-sdk" "0.1.4" (some "x") none
      GlobalState.fresh (by decide),
   init_tracing_service_name_attr true "ndc-sdk" "0.1.4" none none
      GlobalState.fresh (by decide)⟩

/-- C9: the filter directives handed to `EnvFilter` are the compile-time
constant `"info,otel::tracing=trace,otel=debug"`, that constant parses
successfully, and consequently no call to `init_tracing` — for any inputs
and any prior global state — returns the filter-parse error. -/
theorem init_tracing_filter_error_unreachable :
    filter_string = "info,otel::tracing=trace,otel=debug"
    ∧ (env_filter_parse filter_string).isSome = true
    ∧ ∀ (pipelineOk : Bool) (pkgName pkgVersion : String) (sn ep : Option String)
        (st : GlobalState) (s : String),
        (init_tracing pipelineOk pkgName pkgVersion sn ep st).2 ≠ .err (.filterParse s) := by
  refine ⟨rfl, by decide, ?_⟩
  intro pipelineOk pkgName pkgVersion sn ep st s
  have hparse : env_filter_parse filter_string
      = some [.defaultLevel "info".data, .targetLevel "otel::tracing".data "trace".data,
              .targetLevel "otel".data "debug".data] := by decide
  cases pipelineOk
  · simp [init_tracing]
  · unfold init_tracing
    rw [hparse]
    by_cases hsub : st.subscriberSet <;> simp [hsub]

/-- C10: the values `on_response` records depend only on the response's
status code and on the latency argument: two calls on the same span with
responses of equal status codes (but possibly different headers or bodies)
and equal latency produce identical spans. -/
theorem on_response_depends_only_on_status (r1 r2 : Response) (lat : Duration)
    (span : Span) (h : r1.status = r2.status) :
    on_response r1 lat span = on_response r2 lat span := by
  simp [on_response, h]

/-- Witness for C10: two 404 responses with different headers and bodies
are recorded identically. -/
theorem on_response_depends_only_on_status_witness :
    on_response { status := 404, headers := [("x-secret", "a")], body := "left" }
        (Duration.from_millis 7)
        { name := "request", method := "GET", uri := "/a", version := "HTTP/1.1",
          status := none, latency := none, parent := none, closed := false }
      = on_response { status := 404, headers := [], body := "right" }
          (Duration.from_millis 7)
          { name := "request", method := "GET", uri := "/a", version := "HTTP/1.1",
            status := none, latency := none, parent := none, closed := false } :=
  on_response_depends_only_on_status
    { status := 404, headers := [("x-secret", "a")], body := "left" }
    { status := 404, headers := [], body := "right" }
    (Duration.from_millis 7)
    { name := "request", method := "GET", uri := "/a", version := "HTTP/1.1",
      status := none, latency := none, parent := none, closed := false }
    rfl

end NdcSdkTracing
